import Mathlib

/-!
Shallow embedding of `src/pix2pix/networks/generator.py`.

The source file builds Keras layer graphs for two pix2pix generator
networks: `make_generator_ae` (an autoencoder) and `UNETGenerator`
(a U-Net with skip connections).  Graph construction is purely
declarative, so we embed it as terms of an inductive `Tensor` type:
a tensor is either a symbolic `Input` placeholder or the application
of a layer (a `Layer` value recording the constructor arguments used
in the source) to one or more previously built tensors.

Conventions mirrored from the source:
* data layout is channels-first `(channel, height, width)` (the source
  passes `input_img_dim = (channel, height, width)` and uses axis 1 for
  `BatchNormalization` and `Concatenate`);
* Keras `Conv2D` defaults: strides `(1, 1)`; `BatchNormalization`
  default axis is `-1`; these defaults are written out explicitly;
* the float literals `alpha=0.2` and `Dropout(0.5)` are embedded as the
  numerator/denominator pairs `(1, 5)` and `(1, 2)`; no claim depends on their numeric value;
* Keras layer `name=` keyword arguments (pure labels such as
  `gen_en_bn_2`) are omitted: no claim mentions them.
-/

namespace Pix2Pix

/-- Padding mode of a Keras convolution (`padding='same'` / `'valid'`). -/
inductive Padding
  | same
  | valid
deriving DecidableEq, Repr

/-- Activation function kinds occurring in the source. -/
inductive ActKind
  | relu
  | tanh
  | leakyReLU (alpha : Nat × Nat)
deriving DecidableEq, Repr

/-- One Keras layer as constructed in the source, with its constructor
arguments. `activation k` is `Activation(...)`; `leakyReLULayer` is the
bare `LeakyReLU(alpha=...)` layer used directly in `UNETGenerator`. -/
inductive Layer
  | conv2D (filters kernelH kernelW : Nat) (padding : Padding) (strideH strideW : Nat)
  | batchNormalization (axis : Int)
  | activation (k : ActKind)
  | leakyReLULayer (alpha : Nat × Nat)
  | dropout (rate : Nat × Nat)
  | upSampling2D (sizeH sizeW : Nat)
  | concatenate (axis : Nat)
deriving DecidableEq, Repr

/-- A node of the layer graph: an `Input(shape=...)` placeholder, a layer
applied to one tensor, or a layer applied to a list of tensors
(`Concatenate(axis=1)([a, b])`). -/
inductive Tensor
  | input (shape : List Nat)
  | app (l : Layer) (x : Tensor)
  | appList (l : Layer) (xs : List Tensor)

/-- `Model(input=[...], output=[...], name=...)`. -/
structure Model where
  inputs : List Tensor
  outputs : List Tensor
  name : String

mutual

/-- All layers applied on the way to this tensor, in application order
(post-order traversal of the graph term; shared subgraphs are listed
once per occurrence). -/
def layersOf : Tensor → List Layer
  | .input _ => []
  | .app l x => layersOf x ++ [l]
  | .appList l xs => layersOfList xs ++ [l]

/-- `layersOf` over a list of argument tensors. -/
def layersOfList : List Tensor → List Layer
  | [] => []
  | x :: xs => layersOf x ++ layersOfList xs

end

mutual

/-- Channel count (axis 1, channels-first) of a tensor: an input's first
shape entry; a convolution emits its filter count; `Concatenate(axis=1)`
sums its arguments' channels; every other layer preserves channels. -/
def channelsOf : Tensor → Nat
  | .input shape => shape.headD 0
  | .app (.conv2D filters _ _ _ _ _) _ => filters
  | .app _ x => channelsOf x
  | .appList (.concatenate 1) xs => channelsSum xs
  | .appList _ (x :: _) => channelsOf x
  | .appList _ [] => 0

/-- Sum of the channel counts of a list of tensors. -/
def channelsSum : List Tensor → Nat
  | [] => 0
  | x :: xs => channelsOf x + channelsSum xs

end

@[simp] theorem layersOf_input (s : List Nat) : layersOf (Tensor.input s) = [] := rfl

@[simp] theorem layersOf_app (l : Layer) (x : Tensor) :
    layersOf (Tensor.app l x) = layersOf x ++ [l] := rfl

@[simp] theorem layersOf_appList (l : Layer) (xs : List Tensor) :
    layersOf (Tensor.appList l xs) = layersOfList xs ++ [l] := rfl

@[simp] theorem layersOfList_nil : layersOfList [] = [] := rfl

@[simp] theorem layersOfList_cons (x : Tensor) (xs : List Tensor) :
    layersOfList (x :: xs) = layersOf x ++ layersOfList xs := rfl

/-- Output length of a dimension of size `n` under a stride-`stride`
convolution with `'same'` padding: `⌈n / stride⌉`. -/
def convOutDim (n stride : Nat) : Nat := (n + stride - 1) / stride

/-- Spatial height (axis 2, channels-first) of a tensor. A stride-`s`
`'same'` convolution maps `h` to `⌈h / s⌉`; `UpSampling2D` multiplies by
its size; concatenation along channels and all other layers preserve it. -/
def heightOf : Tensor → Nat
  | .input shape => shape.getD 1 0
  | .app (.conv2D _ _ _ _ sh _) x => convOutDim (heightOf x) sh
  | .app (.upSampling2D sh _) x => heightOf x * sh
  | .app _ x => heightOf x
  | .appList _ (x :: _) => heightOf x
  | .appList _ [] => 0

/-- Spatial width (axis 3, channels-first) of a tensor; see `heightOf`. -/
def widthOf : Tensor → Nat
  | .input shape => shape.getD 2 0
  | .app (.conv2D _ _ _ _ _ sw) x => convOutDim (widthOf x) sw
  | .app (.upSampling2D _ sw) x => widthOf x * sw
  | .app _ x => widthOf x
  | .appList _ (x :: _) => widthOf x
  | .appList _ [] => 0

/-- Filter counts of all convolutions on the way to this tensor, in order. -/
def convFilters (t : Tensor) : List Nat :=
  (layersOf t).filterMap fun l =>
    match l with
    | .conv2D f _ _ _ _ _ => some f
    | _ => none

/-- Is this layer a `BatchNormalization`? -/
def isBatchNorm : Layer → Bool
  | .batchNormalization _ => true
  | _ => false

/-- Is this layer a `Concatenate`? -/
def isConcat : Layer → Bool
  | .concatenate _ => true
  | _ => false

/-- A convolution has kernel `(4, 4)` and `'same'` padding (vacuously true
for non-convolutions). -/
def convKernelPadOK : Layer → Bool
  | .conv2D _ kh kw p _ _ => kh == 4 && kw == 4 && p == Padding.same
  | _ => true

/-- A convolution has strides `(s, s)` (vacuously true otherwise). -/
def convStrideEq (s : Nat) : Layer → Bool
  | .conv2D _ _ _ _ sh sw => sh == s && sw == s
  | _ => true

/-- An `UpSampling2D` has size `(2, 2)` (vacuously true otherwise). -/
def upSizeOK : Layer → Bool
  | .upSampling2D sh sw => sh == 2 && sw == 2
  | _ => true

/-- A list of naturals is monotonically non-decreasing. -/
def nondecreasing : List Nat → Bool
  | [] => true
  | [_] => true
  | a :: b :: t => Nat.ble a b && nondecreasing (b :: t)

/-!
## `make_generator_ae` (source lines 14-59)

Encoder: for each `filter_size` in `[64, 128, 256, 512, 512, 512, 512, 512]`,
`Conv2D(filters, (4,4), 'same', strides=(2,2))`, then — skipped when
`filter_size == 64` ("paper skips batch norm for first layer") —
`BatchNormalization()`, then `Activation(LeakyReLU(alpha=0.2))`.

Decoder: for each `filter_size` in `[512, 512, 512, 512, 512, 256, 128, 64]`,
`UpSampling2D((2,2))`, `Conv2D(filters, (4,4), 'same')`,
`BatchNormalization()`, `Dropout(0.5)`, `Activation('relu')`;
then a final `Conv2D(num_output_filters, (4,4), 'same')` and
`Activation('tanh')`.
-/

/-- Encoder filter sizes of `make_generator_ae` (source line 27). -/
def ae_encoder_filter_sizes : List Nat := [64, 128, 256, 512, 512, 512, 512, 512]

/-- Decoder filter sizes of `make_generator_ae` (source line 43). -/
def ae_decoder_filter_sizes : List Nat := [512, 512, 512, 512, 512, 256, 128, 64]

/-- One iteration of the encoder loop of `make_generator_ae`
(source lines 30-35). -/
def aeEncoderBlock (encoder : Tensor) (filter_size : Nat) : Tensor :=
  let encoder := Tensor.app (Layer.conv2D filter_size 4 4 Padding.same 2 2) encoder
  -- paper skips batch norm for first layer
  let encoder :=
    if filter_size ≠ 64 then Tensor.app (Layer.batchNormalization (-1)) encoder else encoder
  Tensor.app (Layer.activation (ActKind.leakyReLU (1, 5))) encoder

/-- One iteration of the decoder loop of `make_generator_ae`
(source lines 46-51). -/
def aeDecoderBlock (decoder : Tensor) (filter_size : Nat) : Tensor :=
  let decoder := Tensor.app (Layer.upSampling2D 2 2) decoder
  let decoder := Tensor.app (Layer.conv2D filter_size 4 4 Padding.same 1 1) decoder
  let decoder := Tensor.app (Layer.batchNormalization (-1)) decoder
  let decoder := Tensor.app (Layer.dropout (1, 2)) decoder
  Tensor.app (Layer.activation ActKind.relu) decoder

/-- The encoder loop of `make_generator_ae` (source lines 29-35). -/
def ae_encoder (input_layer : Tensor) : Tensor :=
  ae_encoder_filter_sizes.foldl aeEncoderBlock input_layer

/-- The decoder loop of `make_generator_ae` (source lines 45-51). -/
def ae_decoder (encoder : Tensor) : Tensor :=
  ae_decoder_filter_sizes.foldl aeDecoderBlock encoder

/-- `make_generator_ae(input_layer, num_output_filters)`
(source lines 14-59). -/
def make_generator_ae (input_layer : Tensor) (num_output_filters : Nat) : Tensor :=
  let encoder := ae_encoder input_layer
  let decoder := ae_decoder encoder
  let decoder := Tensor.app (Layer.conv2D num_output_filters 4 4 Padding.same 1 1) decoder
  Tensor.app (Layer.activation ActKind.tanh) decoder

example : convFilters (ae_encoder (Tensor.input [3, 256, 256])) =
    [64, 128, 256, 512, 512, 512, 512, 512] := by decide

example : channelsOf (make_generator_ae (Tensor.input [3, 256, 256]) 3) = 3 := rfl

/-!
## `UNETGenerator` (source lines 62-203)

Written out stage by stage exactly as the source does, one definition per
encoder stage `en_1` .. `en_8` and decoder stage `de_1` .. `de_8`; each
definition takes the tensors its stage reads (`de_1` .. `de_7` read the
previous decoder output and the skip-connected encoder output).
Throughout, `stride = 2` and `bn_axis = 1` as in the source.
-/

/-- `# 1 encoder C64` — `Conv2D(64, (4,4), 'same', strides=(2,2))` then
`LeakyReLU(0.2)`; batchnorm skipped on this layer on purpose (from paper)
(source lines 94-95). -/
def unet_en_1 (input_layer : Tensor) : Tensor :=
  let en_1 := Tensor.app (Layer.conv2D 64 4 4 Padding.same 2 2) input_layer
  Tensor.app (Layer.leakyReLULayer (1, 5)) en_1

/-- `# 2 encoder C128` (source lines 98-100). -/
def unet_en_2 (en_1 : Tensor) : Tensor :=
  let en_2 := Tensor.app (Layer.conv2D 128 4 4 Padding.same 2 2) en_1
  let en_2 := Tensor.app (Layer.batchNormalization 1) en_2
  Tensor.app (Layer.leakyReLULayer (1, 5)) en_2

/-- `# 3 encoder C256` (source lines 103-105). -/
def unet_en_3 (en_2 : Tensor) : Tensor :=
  let en_3 := Tensor.app (Layer.conv2D 256 4 4 Padding.same 2 2) en_2
  let en_3 := Tensor.app (Layer.batchNormalization 1) en_3
  Tensor.app (Layer.leakyReLULayer (1, 5)) en_3

/-- `# 4 encoder C512` (source lines 108-110). -/
def unet_en_4 (en_3 : Tensor) : Tensor :=
  let en_4 := Tensor.app (Layer.conv2D 512 4 4 Padding.same 2 2) en_3
  let en_4 := Tensor.app (Layer.batchNormalization 1) en_4
  Tensor.app (Layer.leakyReLULayer (1, 5)) en_4

/-- `# 5 encoder C512` — the source's comment says C512 but the code
passes `filters=1024` (source lines 113-115). -/
def unet_en_5 (en_4 : Tensor) : Tensor :=
  let en_5 := Tensor.app (Layer.conv2D 1024 4 4 Padding.same 2 2) en_4
  let en_5 := Tensor.app (Layer.batchNormalization 1) en_5
  Tensor.app (Layer.leakyReLULayer (1, 5)) en_5

/-- `# 6 encoder C512` (source lines 118-120). -/
def unet_en_6 (en_5 : Tensor) : Tensor :=
  let en_6 := Tensor.app (Layer.conv2D 512 4 4 Padding.same 2 2) en_5
  let en_6 := Tensor.app (Layer.batchNormalization 1) en_6
  Tensor.app (Layer.leakyReLULayer (1, 5)) en_6

/-- `# 7 encoder C512` (source lines 123-125). -/
def unet_en_7 (en_6 : Tensor) : Tensor :=
  let en_7 := Tensor.app (Layer.conv2D 512 4 4 Padding.same 2 2) en_6
  let en_7 := Tensor.app (Layer.batchNormalization 1) en_7
  Tensor.app (Layer.leakyReLULayer (1, 5)) en_7

/-- `# 8 encoder C512` (source lines 128-130). -/
def unet_en_8 (en_7 : Tensor) : Tensor :=
  let en_8 := Tensor.app (Layer.conv2D 512 4 4 Padding.same 2 2) en_7
  let en_8 := Tensor.app (Layer.batchNormalization 1) en_8
  Tensor.app (Layer.leakyReLULayer (1, 5)) en_8

/-- `# 1 decoder CD512 (decodes en_8)` — upsample, conv, batchnorm,
dropout, `Concatenate(axis=1)([de_1, en_7])`, relu (source lines 139-144). -/
def unet_de_1 (en_8 en_7 : Tensor) : Tensor :=
  let de_1 := Tensor.app (Layer.upSampling2D 2 2) en_8
  let de_1 := Tensor.app (Layer.conv2D 512 4 4 Padding.same 1 1) de_1
  let de_1 := Tensor.app (Layer.batchNormalization 1) de_1
  let de_1 := Tensor.app (Layer.dropout (1, 2)) de_1
  let de_1 := Tensor.appList (Layer.concatenate 1) [de_1, en_7]
  Tensor.app (Layer.activation ActKind.relu) de_1

/-- `# 2 decoder CD1024 (decodes en_7)` (source lines 147-152). -/
def unet_de_2 (de_1 en_6 : Tensor) : Tensor :=
  let de_2 := Tensor.app (Layer.upSampling2D 2 2) de_1
  let de_2 := Tensor.app (Layer.conv2D 512 4 4 Padding.same 1 1) de_2
  let de_2 := Tensor.app (Layer.batchNormalization 1) de_2
  let de_2 := Tensor.app (Layer.dropout (1, 2)) de_2
  let de_2 := Tensor.appList (Layer.concatenate 1) [de_2, en_6]
  Tensor.app (Layer.activation ActKind.relu) de_2

/-- `# 3 decoder CD1024 (decodes en_6)` (source lines 155-160). -/
def unet_de_3 (de_2 en_5 : Tensor) : Tensor :=
  let de_3 := Tensor.app (Layer.upSampling2D 2 2) de_2
  let de_3 := Tensor.app (Layer.conv2D 1024 4 4 Padding.same 1 1) de_3
  let de_3 := Tensor.app (Layer.batchNormalization 1) de_3
  let de_3 := Tensor.app (Layer.dropout (1, 2)) de_3
  let de_3 := Tensor.appList (Layer.concatenate 1) [de_3, en_5]
  Tensor.app (Layer.activation ActKind.relu) de_3

/-- `# 4 decoder CD1024 (decodes en_5)` (source lines 163-168). -/
def unet_de_4 (de_3 en_4 : Tensor) : Tensor :=
  let de_4 := Tensor.app (Layer.upSampling2D 2 2) de_3
  let de_4 := Tensor.app (Layer.conv2D 512 4 4 Padding.same 1 1) de_4
  let de_4 := Tensor.app (Layer.batchNormalization 1) de_4
  let de_4 := Tensor.app (Layer.dropout (1, 2)) de_4
  let de_4 := Tensor.appList (Layer.concatenate 1) [de_4, en_4]
  Tensor.app (Layer.activation ActKind.relu) de_4

/-- `# 5 decoder CD1024 (decodes en_4)` (source lines 171-176). -/
def unet_de_5 (de_4 en_3 : Tensor) : Tensor :=
  let de_5 := Tensor.app (Layer.upSampling2D 2 2) de_4
  let de_5 := Tensor.app (Layer.conv2D 256 4 4 Padding.same 1 1) de_5
  let de_5 := Tensor.app (Layer.batchNormalization 1) de_5
  let de_5 := Tensor.app (Layer.dropout (1, 2)) de_5
  let de_5 := Tensor.appList (Layer.concatenate 1) [de_5, en_3]
  Tensor.app (Layer.activation ActKind.relu) de_5

/-- `# 6 decoder C512 (decodes en_3)` (source lines 179-184). -/
def unet_de_6 (de_5 en_2 : Tensor) : Tensor :=
  let de_6 := Tensor.app (Layer.upSampling2D 2 2) de_5
  let de_6 := Tensor.app (Layer.conv2D 128 4 4 Padding.same 1 1) de_6
  let de_6 := Tensor.app (Layer.batchNormalization 1) de_6
  let de_6 := Tensor.app (Layer.dropout (1, 2)) de_6
  let de_6 := Tensor.appList (Layer.concatenate 1) [de_6, en_2]
  Tensor.app (Layer.activation ActKind.relu) de_6

/-- `# 7 decoder CD256 (decodes en_2)` (source lines 187-192). -/
def unet_de_7 (de_6 en_1 : Tensor) : Tensor :=
  let de_7 := Tensor.app (Layer.upSampling2D 2 2) de_6
  let de_7 := Tensor.app (Layer.conv2D 64 4 4 Padding.same 1 1) de_7
  let de_7 := Tensor.app (Layer.batchNormalization 1) de_7
  let de_7 := Tensor.app (Layer.dropout (1, 2)) de_7
  let de_7 := Tensor.appList (Layer.concatenate 1) [de_7, en_1]
  Tensor.app (Layer.activation ActKind.relu) de_7

/-- Final decoder step: upsample, `Conv2D(num_output_channels, (4,4),
'same')`, `Activation('tanh')` (source lines 198-200). -/
def unet_de_8 (de_7 : Tensor) (num_output_channels : Nat) : Tensor :=
  let de_8 := Tensor.app (Layer.upSampling2D 2 2) de_7
  let de_8 := Tensor.app (Layer.conv2D num_output_channels 4 4 Padding.same 1 1) de_8
  Tensor.app (Layer.activation ActKind.tanh) de_8

/-- `UNETGenerator(input_img_dim, num_output_channels)`
(source lines 62-203): wires the stages above exactly as the source's
straight-line code does and returns
`Model(input=[input_layer], output=[de_8], name='unet_generator')`. -/
def UNETGenerator (input_img_dim : List Nat) (num_output_channels : Nat) : Model :=
  let input_layer := Tensor.input input_img_dim
  let en_1 := unet_en_1 input_layer
  let en_2 := unet_en_2 en_1
  let en_3 := unet_en_3 en_2
  let en_4 := unet_en_4 en_3
  let en_5 := unet_en_5 en_4
  let en_6 := unet_en_6 en_5
  let en_7 := unet_en_7 en_6
  let en_8 := unet_en_8 en_7
  let de_1 := unet_de_1 en_8 en_7
  let de_2 := unet_de_2 de_1 en_6
  let de_3 := unet_de_3 de_2 en_5
  let de_4 := unet_de_4 de_3 en_4
  let de_5 := unet_de_5 de_4 en_3
  let de_6 := unet_de_6 de_5 en_2
  let de_7 := unet_de_7 de_6 en_1
  let de_8 := unet_de_8 de_7 num_output_channels
  ⟨[input_layer], [de_8], "unet_generator"⟩

/-- The single output tensor of `UNETGenerator`. -/
def unetOutput (input_img_dim : List Nat) (num_output_channels : Nat) : Tensor :=
  (UNETGenerator input_img_dim num_output_channels).outputs.headD (Tensor.input [])

/-- The tensor produced by the `k`-th UNET encoder stage (`k` from 1 to 8),
i.e. the source's variable `en_k`. -/
def unetEncStage (input_layer : Tensor) : Nat → Tensor
  | 1 => unet_en_1 input_layer
  | 2 => unet_en_2 (unet_en_1 input_layer)
  | 3 => unet_en_3 (unet_en_2 (unet_en_1 input_layer))
  | 4 => unet_en_4 (unet_en_3 (unet_en_2 (unet_en_1 input_layer)))
  | 5 => unet_en_5 (unet_en_4 (unet_en_3 (unet_en_2 (unet_en_1 input_layer))))
  | 6 => unet_en_6 (unet_en_5 (unet_en_4 (unet_en_3 (unet_en_2 (unet_en_1 input_layer)))))
  | 7 => unet_en_7 (unet_en_6 (unet_en_5 (unet_en_4 (unet_en_3 (unet_en_2 (unet_en_1 input_layer))))))
  | 8 => unet_en_8 (unet_en_7 (unet_en_6 (unet_en_5 (unet_en_4 (unet_en_3 (unet_en_2 (unet_en_1 input_layer)))))))
  | _ => input_layer

/-- The source's `de_1` as a function of the graph input. -/
def unet_d1 (x : Tensor) : Tensor := unet_de_1 (unetEncStage x 8) (unetEncStage x 7)

/-- The source's `de_2` as a function of the graph input. -/
def unet_d2 (x : Tensor) : Tensor := unet_de_2 (unet_d1 x) (unetEncStage x 6)

/-- The source's `de_3` as a function of the graph input. -/
def unet_d3 (x : Tensor) : Tensor := unet_de_3 (unet_d2 x) (unetEncStage x 5)

/-- The source's `de_4` as a function of the graph input. -/
def unet_d4 (x : Tensor) : Tensor := unet_de_4 (unet_d3 x) (unetEncStage x 4)

/-- The source's `de_5` as a function of the graph input. -/
def unet_d5 (x : Tensor) : Tensor := unet_de_5 (unet_d4 x) (unetEncStage x 3)

/-- The source's `de_6` as a function of the graph input. -/
def unet_d6 (x : Tensor) : Tensor := unet_de_6 (unet_d5 x) (unetEncStage x 2)

/-- The source's `de_7` as a function of the graph input. -/
def unet_d7 (x : Tensor) : Tensor := unet_de_7 (unet_d6 x) (unetEncStage x 1)

/-- The source's `de_8` as a function of the graph input. -/
def unet_d8 (x : Tensor) (num_output_channels : Nat) : Tensor :=
  unet_de_8 (unet_d7 x) num_output_channels

/-- The tensor produced by the `k`-th UNET decoder stage (`k` from 1 to 8),
i.e. the source's variable `de_k`; stage 8 needs `num_output_channels`. -/
def unetDecStage (input_layer : Tensor) (num_output_channels : Nat) : Nat → Tensor
  | 1 => unet_d1 input_layer
  | 2 => unet_d2 input_layer
  | 3 => unet_d3 input_layer
  | 4 => unet_d4 input_layer
  | 5 => unet_d5 input_layer
  | 6 => unet_d6 input_layer
  | 7 => unet_d7 input_layer
  | 8 => unet_d8 input_layer num_output_channels
  | _ => input_layer

example : unetOutput [3, 256, 256] 3 = unetDecStage (Tensor.input [3, 256, 256]) 3 8 := rfl

example : convFilters (unetEncStage (Tensor.input [3, 256, 256]) 8) =
    [64, 128, 256, 512, 1024, 512, 512, 512] := by decide

/-!
## Analysis helpers for the per-stage claims
-/

/-- A stage's output has the form
`Activation(...)(Concatenate(axis=1)([pre, enc]))` with `enc` the given
skip-connected tensor: the stage concatenates with `enc` immediately
before its final activation. -/
def concatBeforeActWith (stage enc : Tensor) : Prop :=
  match stage with
  | .app (.activation _) (.appList (.concatenate 1) [_, e]) => e = enc
  | _ => False

/-- The axis of the concatenation sitting immediately under a stage's
final activation, if any. -/
def concatAxisOf : Tensor → Option Nat
  | .app (.activation _) (.appList (.concatenate a) _) => some a
  | _ => none

/-- Filter count of the most recent convolution on the primary (first
argument) path of the graph term, i.e. a stage's own convolution. -/
def stageConvFilters : Tensor → Nat
  | .app (.conv2D f _ _ _ _ _) _ => f
  | .app _ x => stageConvFilters x
  | .appList _ (x :: _) => stageConvFilters x
  | _ => 0

/-- The layers a function adds on top of its argument tensors, read off
by applying it to a bare placeholder. -/
def newLayers (stage : Tensor → Tensor) : List Layer :=
  layersOf (stage (Tensor.input []))

/-- The layers one `make_generator_ae` encoder block adds for a given
filter size. -/
def aeEncBlockLayers (filter_size : Nat) : List Layer :=
  newLayers (fun x => aeEncoderBlock x filter_size)

/-- The layers one `make_generator_ae` decoder block adds for a given
filter size. -/
def aeDecBlockLayers (filter_size : Nat) : List Layer :=
  newLayers (fun x => aeDecoderBlock x filter_size)

/-- Layer table of the 8 `make_generator_ae` encoder blocks. -/
def aeEncoderStageLayers : List (List Layer) :=
  ae_encoder_filter_sizes.map aeEncBlockLayers

/-- Layer table of the 8 `make_generator_ae` decoder blocks (the final
convolution and tanh are outside the loop). -/
def aeDecoderStageLayers : List (List Layer) :=
  ae_decoder_filter_sizes.map aeDecBlockLayers

/-- Layer table of the 8 `UNETGenerator` encoder stages (each stage's own
layers, read off by applying the stage to a bare placeholder). -/
def unetEncoderStageLayers : List (List Layer) :=
  [newLayers unet_en_1, newLayers unet_en_2, newLayers unet_en_3, newLayers unet_en_4,
   newLayers unet_en_5, newLayers unet_en_6, newLayers unet_en_7, newLayers unet_en_8]

/-- Layer table of the 8 `UNETGenerator` decoder stages; stages 1-7 take
two argument tensors (previous decoder output and skip connection),
stage 8 takes the output-channel count. -/
def unetDecoderStageLayers (num_output_channels : Nat) : List (List Layer) :=
  [newLayers (fun x => unet_de_1 x (Tensor.input [])),
   newLayers (fun x => unet_de_2 x (Tensor.input [])),
   newLayers (fun x => unet_de_3 x (Tensor.input [])),
   newLayers (fun x => unet_de_4 x (Tensor.input [])),
   newLayers (fun x => unet_de_5 x (Tensor.input [])),
   newLayers (fun x => unet_de_6 x (Tensor.input [])),
   newLayers (fun x => unet_de_7 x (Tensor.input [])),
   newLayers (fun x => unet_de_8 x num_output_channels)]

/-- `newLayers` applied with the skip-connection placeholder first, so a
decoder stage's table rows list only the layers the stage itself adds
(the skip tensor contributes no layers). -/
example : newLayers (fun x => unet_de_1 x (Tensor.input [])) =
    [Layer.upSampling2D 2 2, Layer.conv2D 512 4 4 Padding.same 1 1,
     Layer.batchNormalization 1, Layer.dropout (1, 2), Layer.concatenate 1,
     Layer.activation ActKind.relu] := by decide

/-- The operation signature used to compare the two generators' stage
compositions: it forgets whether an activation was wrapped in
`Activation(...)` or applied as a bare layer, and forgets the
batch-normalization axis; everything else is kept. -/
def opOf : Layer → Layer
  | .leakyReLULayer a => .activation (.leakyReLU a)
  | .batchNormalization _ => .batchNormalization 1
  | l => l

/-- Operation signatures of a layer table. -/
def opsOf (table : List (List Layer)) : List (List Layer) :=
  table.map (List.map opOf)

/-!
## Claims
-/

/-- C4: in `make_generator_ae` the decoder consists of exactly 8 blocks,
each built as upsample, then convolution, then normalization, then
dropout, then activation, and the network ends with one final
convolution followed by a tanh activation: the layer sequence of the
whole generator is the encoder's layers, then 8 such five-layer blocks
(one per decoder filter size), then the final convolution and tanh. -/
theorem ae_decoder_eight_blocks_then_final_conv_tanh (d : List Nat) (n : Nat) :
    ae_decoder_filter_sizes.length = 8 ∧
    layersOf (make_generator_ae (Tensor.input d) n) =
      layersOf (ae_encoder (Tensor.input d)) ++
        (ae_decoder_filter_sizes.map fun f =>
          [Layer.upSampling2D 2 2, Layer.conv2D f 4 4 Padding.same 1 1,
           Layer.batchNormalization (-1), Layer.dropout (1, 2),
           Layer.activation ActKind.relu]).flatten ++
        [Layer.conv2D n 4 4 Padding.same 1 1, Layer.activation ActKind.tanh] := by
  refine ⟨rfl, ?_⟩
  simp [make_generator_ae, ae_encoder, ae_decoder, ae_encoder_filter_sizes,
    ae_decoder_filter_sizes, aeEncoderBlock, aeDecoderBlock, List.foldl]

/-- C9: for every positive output-channel argument the generator's output
tensor has exactly that many channels: `make_generator_ae` ends in a
convolution with `num_output_filters` filters and `UNETGenerator` in one
with `num_output_channels` filters, each followed only by a
channel-preserving tanh activation. -/
theorem generator_output_channels (x : Tensor) (d : List Nat) (n : Nat) (hn : 0 < n) :
    channelsOf (make_generator_ae x n) = n ∧ channelsOf (unetOutput d n) = n :=
  ⟨rfl, rfl⟩

/-- Witness for C9 at `num_output_filters = num_output_channels = 3`. -/
theorem generator_output_channels_witness :
    channelsOf (make_generator_ae (Tensor.input [3, 256, 256]) 3) = 3 ∧
    channelsOf (unetOutput [3, 256, 256] 3) = 3 :=
  generator_output_channels (Tensor.input [3, 256, 256]) [3, 256, 256] 3 (by decide)

/-- C10: every convolution in either generator has a 4x4 kernel and
`'same'` padding; every encoder convolution has strides `(2, 2)`; every
decoder convolution (including the final output convolutions) has the
default strides `(1, 1)`; and every `UpSampling2D` has size `(2, 2)`. -/
theorem conv_kernel_stride_invariants (d : List Nat) (n : Nat) :
    (layersOf (make_generator_ae (Tensor.input d) n)).all convKernelPadOK = true ∧
    (layersOf (unetOutput d n)).all convKernelPadOK = true ∧
    (layersOf (ae_encoder (Tensor.input d))).all (convStrideEq 2) = true ∧
    (layersOf (unetEncStage (Tensor.input d) 8)).all (convStrideEq 2) = true ∧
    ((aeDecoderStageLayers.flatten ++ [Layer.conv2D n 4 4 Padding.same 1 1]).all
        (convStrideEq 1)) = true ∧
    ((unetDecoderStageLayers n).flatten.all (convStrideEq 1)) = true ∧
    (layersOf (make_generator_ae (Tensor.input d) n)).all upSizeOK = true ∧
    (layersOf (unetOutput d n)).all upSizeOK = true := by
  refine ⟨?_, ?_, ?_, ?_, ?_, ?_, ?_, ?_⟩ <;>
    simp [make_generator_ae, ae_encoder, ae_decoder, ae_encoder_filter_sizes,
      ae_decoder_filter_sizes, aeEncoderBlock, aeDecoderBlock, List.foldl, unetOutput,
      UNETGenerator, unet_en_1, unet_en_2, unet_en_3, unet_en_4, unet_en_5, unet_en_6,
      unet_en_7, unet_en_8, unet_de_1, unet_de_2, unet_de_3, unet_de_4, unet_de_5,
      unet_de_6, unet_de_7, unet_de_8, unetEncStage, unetDecStage, unet_d1, unet_d2,
      unet_d3, unet_d4, unet_d5, unet_d6, unet_d7, unet_d8, aeDecoderStageLayers,
      aeDecBlockLayers, unetDecoderStageLayers, newLayers, convKernelPadOK,
      convStrideEq, upSizeOK]

/-- C1 counterexample: decoder stage 8 of `UNETGenerator` performs no
concatenation at all — the layer under its final (tanh) activation is a
convolution, not a `Concatenate`, and the stage's own layers contain no
`Concatenate` — so it is not the case that every one of the 8 decoder
stages concatenates with an encoder stage before its activation. -/
theorem unet_decoder_stage8_no_concat :
    concatAxisOf (unetDecStage (Tensor.input [1, 256, 256]) 3 8) = none ∧
    (newLayers (fun x => unet_de_8 x 3)).all (fun l => !(isConcat l)) = true := by
  exact ⟨rfl, by decide⟩

/-- C1 (amended): each of decoder stages 1-7 of `UNETGenerator`
concatenates its output with the output of encoder stage `8 - i`
(along axis 1) immediately before the stage's final activation; decoder
stage 8, the output stage, has no concatenation. -/
theorem unet_decoder_skip_concats (d : List Nat) (n i : Nat) (h1 : 1 ≤ i) (h2 : i ≤ 7) :
    concatBeforeActWith (unetDecStage (Tensor.input d) n i)
      (unetEncStage (Tensor.input d) (8 - i)) := by
  interval_cases i <;> exact rfl

/-- Witness for C1 (amended) at stage 3 (skips from encoder stage 5). -/
theorem unet_decoder_skip_concats_witness :
    concatBeforeActWith (unetDecStage (Tensor.input [1, 256, 256]) 3 3)
      (unetEncStage (Tensor.input [1, 256, 256]) (8 - 3)) :=
  unet_decoder_skip_concats [1, 256, 256] 3 3 (by decide) (by decide)

/-- C2 counterexample: the first encoder block of `make_generator_ae`
(filter size 64, the head of the filter-size list) applies no
normalization — its layers are just the strided convolution and the
LeakyReLU activation — so normalization is not applied in every one of
the 8 encoder blocks. -/
theorem ae_first_encoder_block_no_batchnorm :
    ae_encoder_filter_sizes.headD 0 = 64 ∧
    (aeEncBlockLayers 64).all (fun l => !(isBatchNorm l)) = true ∧
    aeEncBlockLayers 64 =
      [Layer.conv2D 64 4 4 Padding.same 2 2,
       Layer.activation (ActKind.leakyReLU (1, 5))] := by
  decide

/-- C2 (amended): every `make_generator_ae` encoder block is a strided
convolution followed by normalization followed by a LeakyReLU
activation, except the first block (filter size 64), which skips the
normalization (the source comments "paper skips batch norm for first
layer"). -/
theorem ae_encoder_block_structure (i : Nat) (h : i < 8) :
    aeEncBlockLayers (ae_encoder_filter_sizes.getD i 0) =
      if i = 0 then
        [Layer.conv2D 64 4 4 Padding.same 2 2,
         Layer.activation (ActKind.leakyReLU (1, 5))]
      else
        [Layer.conv2D (ae_encoder_filter_sizes.getD i 0) 4 4 Padding.same 2 2,
         Layer.batchNormalization (-1),
         Layer.activation (ActKind.leakyReLU (1, 5))] := by
  interval_cases i <;> decide

/-- Witness for C2 (amended) at block 2 (index 1, filter size 128). -/
theorem ae_encoder_block_structure_witness :
    aeEncBlockLayers (ae_encoder_filter_sizes.getD 1 0) =
      if 1 = 0 then
        [Layer.conv2D 64 4 4 Padding.same 2 2,
         Layer.activation (ActKind.leakyReLU (1, 5))]
      else
        [Layer.conv2D (ae_encoder_filter_sizes.getD 1 0) 4 4 Padding.same 2 2,
         Layer.batchNormalization (-1),
         Layer.activation (ActKind.leakyReLU (1, 5))] :=
  ae_encoder_block_structure 1 (by decide)

/-- C3 counterexample: the two generators do not use the same filter
count at every corresponding stage: encoder stage 5 (index 4) has 512
filters in `make_generator_ae` but 1024 in `UNETGenerator`. -/
theorem ae_unet_encoder_stage5_filters_differ :
    (convFilters (ae_encoder (Tensor.input [3, 256, 256]))).getD 4 0 = 512 ∧
    (convFilters (unetEncStage (Tensor.input [3, 256, 256]) 8)).getD 4 0 = 1024 ∧
    ¬ (convFilters (unetEncStage (Tensor.input [3, 256, 256]) 8)).getD 4 0 =
        (convFilters (ae_encoder (Tensor.input [3, 256, 256]))).getD 4 0 := by
  decide

/-- C3 (amended): comparing stage operation signatures (forgetting only
activation-wrapper form and batch-normalization axis): the UNET encoder
stage table equals the `make_generator_ae` encoder stage table except at
stage 5, where UNET uses 1024 filters instead of 512; the AE decoder is
8 blocks upsample/conv/norm/dropout/relu with filters
[512, 512, 512, 512, 512, 256, 128, 64] plus a separate final
convolution and tanh, while the UNET decoder is 7 such blocks with a
concatenation inserted before each relu and the different filters
[512, 512, 1024, 512, 256, 128, 64], followed by an 8th stage
(upsample, convolution to the output channels, tanh) that folds in the
final convolution and has no normalization, dropout or concatenation. -/
theorem ae_unet_stage_correspondence (n : Nat) :
    opsOf unetEncoderStageLayers =
      (opsOf aeEncoderStageLayers).set 4
        [Layer.conv2D 1024 4 4 Padding.same 2 2, Layer.batchNormalization 1,
         Layer.activation (ActKind.leakyReLU (1, 5))] ∧
    (opsOf aeEncoderStageLayers).getD 4 [] =
      [Layer.conv2D 512 4 4 Padding.same 2 2, Layer.batchNormalization 1,
       Layer.activation (ActKind.leakyReLU (1, 5))] ∧
    opsOf aeDecoderStageLayers =
      ae_decoder_filter_sizes.map (fun f =>
        [Layer.upSampling2D 2 2, Layer.conv2D f 4 4 Padding.same 1 1,
         Layer.batchNormalization 1, Layer.dropout (1, 2),
         Layer.activation ActKind.relu]) ∧
    ae_decoder_filter_sizes = [512, 512, 512, 512, 512, 256, 128, 64] ∧
    opsOf (unetDecoderStageLayers n) =
      ([512, 512, 1024, 512, 256, 128, 64].map (fun f =>
        [Layer.upSampling2D 2 2, Layer.conv2D f 4 4 Padding.same 1 1,
         Layer.batchNormalization 1, Layer.dropout (1, 2), Layer.concatenate 1,
         Layer.activation ActKind.relu])) ++
      [[Layer.upSampling2D 2 2, Layer.conv2D n 4 4 Padding.same 1 1,
        Layer.activation ActKind.tanh]] := by
  refine ⟨by decide, by decide, by decide, by decide, ?_⟩
  simp [opsOf, unetDecoderStageLayers, newLayers, unet_de_1, unet_de_2, unet_de_3,
    unet_de_4, unet_de_5, unet_de_6, unet_de_7, unet_de_8, opOf]

set_option maxHeartbeats 4000000 in
/-- C5: for inputs whose height and width are divisible by `2^8`, the 8
stride-2 `'same'` convolutions of the encoder reduce the spatial size to
`h / 2^8` by `w / 2^8`, and the 8 `UpSampling2D((2,2))` steps of the
decoder (all decoder convolutions have stride 1) restore it, so both
generators output the same spatial height and width as their input. -/
theorem generator_spatial_round_trip (c h w n : Nat) (hh : 2 ^ 8 ∣ h) (hw : 2 ^ 8 ∣ w) :
    heightOf (make_generator_ae (Tensor.input [c, h, w]) n) = h ∧
    widthOf (make_generator_ae (Tensor.input [c, h, w]) n) = w ∧
    heightOf (unetOutput [c, h, w] n) = h ∧
    widthOf (unetOutput [c, h, w] n) = w ∧
    heightOf (ae_encoder (Tensor.input [c, h, w])) = h / 2 ^ 8 ∧
    widthOf (ae_encoder (Tensor.input [c, h, w])) = w / 2 ^ 8 ∧
    heightOf (unetEncStage (Tensor.input [c, h, w]) 8) = h / 2 ^ 8 ∧
    widthOf (unetEncStage (Tensor.input [c, h, w]) 8) = w / 2 ^ 8 := by
  obtain ⟨a, rfl⟩ := hh
  obtain ⟨b, rfl⟩ := hw
  refine ⟨?_, ?_, ?_, ?_, ?_, ?_, ?_, ?_⟩ <;>
    simp [make_generator_ae, ae_encoder, ae_decoder, ae_encoder_filter_sizes,
      ae_decoder_filter_sizes, aeEncoderBlock, aeDecoderBlock, List.foldl, unetOutput,
      UNETGenerator, unet_en_1, unet_en_2, unet_en_3, unet_en_4, unet_en_5, unet_en_6,
      unet_en_7, unet_en_8, unet_de_1, unet_de_2, unet_de_3, unet_de_4, unet_de_5,
      unet_de_6, unet_de_7, unet_de_8, unetEncStage, heightOf, widthOf, convOutDim] <;>
    omega

/-- Witness for C5 at a 3x256x256 input with 3 output channels. -/
theorem generator_spatial_round_trip_witness :
    heightOf (make_generator_ae (Tensor.input [3, 256, 256]) 3) = 256 ∧
    widthOf (make_generator_ae (Tensor.input [3, 256, 256]) 3) = 256 ∧
    heightOf (unetOutput [3, 256, 256] 3) = 256 ∧
    widthOf (unetOutput [3, 256, 256] 3) = 256 ∧
    heightOf (ae_encoder (Tensor.input [3, 256, 256])) = 256 / 2 ^ 8 ∧
    widthOf (ae_encoder (Tensor.input [3, 256, 256])) = 256 / 2 ^ 8 ∧
    heightOf (unetEncStage (Tensor.input [3, 256, 256]) 8) = 256 / 2 ^ 8 ∧
    widthOf (unetEncStage (Tensor.input [3, 256, 256]) 8) = 256 / 2 ^ 8 :=
  generator_spatial_round_trip 3 256 256 3 (by decide) (by decide)

/-- C6: the `make_generator_ae` encoder filter counts
[64, 128, 256, 512, 512, 512, 512, 512] are non-decreasing, but the
`UNETGenerator` encoder filter counts are
[64, 128, 256, 512, 1024, 512, 512, 512] — the code passes
`filters=1024` at stage 5 where its own comment says `C512` — which
decrease from stage 5 to stage 6, so the claimed monotone increase fails
for `UNETGenerator`. -/
theorem unet_encoder_filters_not_monotone :
    convFilters (ae_encoder (Tensor.input [3, 256, 256])) =
      [64, 128, 256, 512, 512, 512, 512, 512] ∧
    nondecreasing (convFilters (ae_encoder (Tensor.input [3, 256, 256]))) = true ∧
    convFilters (unetEncStage (Tensor.input [3, 256, 256]) 8) =
      [64, 128, 256, 512, 1024, 512, 512, 512] ∧
    nondecreasing (convFilters (unetEncStage (Tensor.input [3, 256, 256]) 8)) = false := by
  refine ⟨by decide, by decide, by decide, by decide⟩

/-- C8: each of UNET decoder stages 1-7 concatenates along axis 1 (the
channel axis), so its output channel count is the stage's own
convolution filter count plus the channel count of encoder stage
`8 - i`; in particular stage 3 produces 1024 + 1024 = 2048 channels. -/
theorem unet_decoder_stage_channels (d : List Nat) (n i : Nat) (h1 : 1 ≤ i) (h2 : i ≤ 7) :
    concatAxisOf (unetDecStage (Tensor.input d) n i) = some 1 ∧
    channelsOf (unetDecStage (Tensor.input d) n i) =
      stageConvFilters (unetDecStage (Tensor.input d) n i) +
        channelsOf (unetEncStage (Tensor.input d) (8 - i)) ∧
    channelsOf (unetDecStage (Tensor.input d) n 3) = 2048 := by
  interval_cases i <;> exact ⟨rfl, rfl, rfl⟩

/-- Witness for C8 at stage 3: 1024 stage filters plus the 1024 channels
of encoder stage 5 give 2048 output channels. -/
theorem unet_decoder_stage_channels_witness :
    concatAxisOf (unetDecStage (Tensor.input [3, 256, 256]) 3 3) = some 1 ∧
    channelsOf (unetDecStage (Tensor.input [3, 256, 256]) 3 3) =
      stageConvFilters (unetDecStage (Tensor.input [3, 256, 256]) 3 3) +
        channelsOf (unetEncStage (Tensor.input [3, 256, 256]) (8 - 3)) ∧
    channelsOf (unetDecStage (Tensor.input [3, 256, 256]) 3 3) = 2048 :=
  unet_decoder_stage_channels [3, 256, 256] 3 3 (by decide) (by decide)

end Pix2Pix
